/-
Verification of the SecureVault incremental backup core.

Shallow embedding of the C++ sources in src/src/file_backup.cpp and
src/src/backup.cpp.  Timestamps are modelled as Int values counting
seconds since the Unix epoch (std::chrono::system_clock at second
granularity; the code compares a whole-second time_t derived value
against the clock, so flooring the clock to seconds is faithful).
Filesystem state (directory trees, the marker file, archive streams,
backup folders) is passed in explicitly as data; fallible C++ calls
are modelled by Except or by explicit Bool outcome fields.
-/
import Mathlib

/-- The expression
`std::chrono::system_clock::now() - (std::chrono::system_clock::now() - to_sys(lastWrite))`
used at file_backup.cpp lines 78 and 154 and backup.cpp line 187; within a
pure model both clock reads denote the same instant `now`. -/
def fileTimeOf (now mtime : Int) : Int :=
  now - (now - mtime)

theorem fileTimeOf_eq (now mtime : Int) : fileTimeOf now mtime = mtime := by
  unfold fileTimeOf; omega

/-- The `isExcluded` lambda of file_backup.cpp lines 62-64 and 134-136:
`!ext.empty() && std::ranges::find(excludeExtensions, ext) != end`. -/
def isExcluded (excludeExtensions : List String) (ext : String) : Bool :=
  !ext.isEmpty && excludeExtensions.contains ext

/-- ASCII decimal digit test, mirroring the characters `std::stol` consumes. -/
def isDigitCh (c : Char) : Bool :=
  decide ('0' ≤ c) && decide (c ≤ '9')

/-- Whitespace skipped by `std::stol` before the number. -/
def isSpaceCh (c : Char) : Bool :=
  c = ' ' || c = '\t' || c = '\n' || c = '\r'

/-- Accumulate a digit run into a natural number, most significant first. -/
def digitsToNat (ds : List Char) : Nat :=
  ds.foldl (fun a c => a * 10 + (c.toNat - 48)) 0

/-- Model of `std::stol(s)` with base 10 on a 64-bit long: skip leading
whitespace, take an optional sign, then the longest run of decimal digits.
No digits raises invalid_argument and a value outside the long range raises
out_of_range; both exceptional outcomes are `none`. -/
def stol (s : String) : Option Int :=
  let cs := s.data.dropWhile isSpaceCh
  let signed : Bool × List Char :=
    match cs with
    | '-' :: rest => (true, rest)
    | '+' :: rest => (false, rest)
    | _ => (false, cs)
  let ds := signed.2.takeWhile isDigitCh
  if ds.isEmpty then none
  else
    let n : Int := (digitsToNat ds : Nat)
    let v : Int := if signed.1 then -n else n
    if v < -(2 ^ 63) ∨ 2 ^ 63 - 1 < v then none else some v

/-- The first line of a file, as read by `std::getline`. -/
def firstLine (s : String) : String :=
  String.mk (s.data.takeWhile (fun c => c ≠ '\n'))

/-- Reading the incremental marker file (file_backup.cpp lines 50-60 and
122-132).  `content` is `none` when `fs::exists(lastBackupFile)` is false.
The default `time_point()` is the epoch (0); `getline` fails on an empty
file, an empty first line fails the `!timestamp.empty()` test, and a
`std::stol` exception is caught, all leaving the epoch default. -/
def markerValue (content : Option String) : Int :=
  match content with
  | none => 0
  | some s =>
    let line := firstLine s
    if line.isEmpty then 0
    else
      match stol line with
      | some v => v
      | none => 0

/-- The `lastBackupTime` local of countFiles and backupDirectory: it keeps
its epoch default unless the run is incremental, in which case the marker
file is consulted. -/
def lastBackupTimeOf (content : Option String) (fullBackup : Bool) : Int :=
  if fullBackup then 0 else markerValue content

/-- One entry yielded by `fs::recursive_directory_iterator`: its path, the
string of `path().extension()`, whether `is_regular_file()` holds, the
last-write time converted to system-clock seconds, and whether the
`std::ifstream` open at file_backup.cpp line 163 succeeds. -/
structure FileEntry where
  path : String
  ext : String
  isRegular : Bool
  mtime : Int
  openable : Bool
deriving DecidableEq

/-- One configured source directory: whether `fs::exists` holds and the
sequence of entries its recursive iteration yields (entries produced before
a filesystem_error are kept; the error itself only ends the walk, see the
catch blocks at file_backup.cpp lines 84-86 and 201-204). -/
structure SourceDir where
  present : Bool
  entries : List FileEntry
deriving DecidableEq

/-- The counting loop body of TarGzFileBackupStrategy::countFiles
(file_backup.cpp lines 72-83): regular files only, exclusion check first,
then the incremental time comparison. -/
def countLoop (excl : List String) (fullBackup : Bool) (marker now : Int) :
    List FileEntry → Nat
  | [] => 0
  | f :: rest =>
    if f.isRegular then
      if isExcluded excl f.ext then countLoop excl fullBackup marker now rest
      else if fullBackup ∨ marker < fileTimeOf now f.mtime then
        countLoop excl fullBackup marker now rest + 1
      else countLoop excl fullBackup marker now rest
    else countLoop excl fullBackup marker now rest

/-- countFiles restricted to one source directory: a missing directory is
skipped with a warning (file_backup.cpp lines 67-70). -/
def countDirectory (excl : List String) (content : Option String)
    (fullBackup : Bool) (now : Int) (d : SourceDir) : Nat :=
  if d.present then
    countLoop excl fullBackup (lastBackupTimeOf content fullBackup) now d.entries
  else 0

/-- TarGzFileBackupStrategy::countFiles (file_backup.cpp lines 46-89):
the marker is read once, then every source directory is walked. -/
def countFilesRun (excl : List String) (content : Option String)
    (fullBackup : Bool) (now : Int) (dirs : List SourceDir) : Nat :=
  (dirs.map (countDirectory excl content fullBackup now)).sum

/-- The per-entry loop of TarGzFileBackupStrategy::backupDirectory
(file_backup.cpp lines 139-200), returning the paths archived, in
traversal order.  `flag` is the value of the process-wide gShutdownFlag
observed by this task (the flag is set at most once and never cleared;
within the window modelled here it is constant).  The checks appear in
source order: shutdown, is_regular_file, exclusion, incremental time,
ifstream open, and the second shutdown check taken under the mutex. -/
def backupDirLoop (excl : List String) (fullBackup : Bool) (marker now : Int)
    (flag : Bool) : List FileEntry → List String
  | [] => []
  | f :: rest =>
    if flag then []
    else if !f.isRegular then backupDirLoop excl fullBackup marker now flag rest
    else if isExcluded excl f.ext then backupDirLoop excl fullBackup marker now flag rest
    else if !fullBackup ∧ fileTimeOf now f.mtime ≤ marker then
      backupDirLoop excl fullBackup marker now flag rest
    else if !f.openable then backupDirLoop excl fullBackup marker now flag rest
    else if flag then []
    else f.path :: backupDirLoop excl fullBackup marker now flag rest

/-- TarGzFileBackupStrategy::backupDirectory (file_backup.cpp lines
102-205): skip a missing directory, re-read the marker, then run the
entry loop. -/
def backupDirectory (excl : List String) (content : Option String)
    (fullBackup : Bool) (now : Int) (flag : Bool) (d : SourceDir) : List String :=
  if d.present then
    backupDirLoop excl fullBackup (lastBackupTimeOf content fullBackup) now flag d.entries
  else []

deriving instance DecidableEq for Except

/-- Outcome of TarGzFileBackupStrategy::execute: the returned
`std::expected<void, std::string>`, whether control reached the
`archive_write_open_filename` call (so an archive file may exist on disk),
and the time_t written to the marker file, when one is written. -/
structure TarOutcome where
  result : Except String Unit
  archiveOpenAttempted : Bool
  markerWrite : Option Int
deriving DecidableEq

/-- TarGzFileBackupStrategy::execute (file_backup.cpp lines 215-285).
`scanNow` is the clock during counting, `endNow` the clock sampled at line
278 after the archive is closed.  `archiveOpenOk` models the
`archive_write_open_filename` result and `flagJoin` the gShutdownFlag value
read at line 264 after all worker threads joined.  Control flow: count,
early success on zero files, archive open, spawn and join the per-directory
workers, interruption check, marker write. -/
def tarGzExecute (excl : List String) (content : Option String)
    (fullBackup : Bool) (scanNow endNow : Int) (dirs : List SourceDir)
    (archiveOpenOk flagJoin : Bool) : TarOutcome :=
  let totalFiles := countFilesRun excl content fullBackup scanNow dirs
  if totalFiles = 0 then
    { result := Except.ok (), archiveOpenAttempted := false, markerWrite := none }
  else if !archiveOpenOk then
    { result := Except.error "Failed to open archive file"
      archiveOpenAttempted := true, markerWrite := none }
  else if flagJoin then
    { result := Except.error "Backup interrupted by signal"
      archiveOpenAttempted := true, markerWrite := none }
  else
    { result := Except.ok (), archiveOpenAttempted := true
      markerWrite := some endNow }

/-- Result of one `archive_read_next_header` call inside
Backup::verifyBackup: ARCHIVE_OK, ARCHIVE_EOF, or a decode failure
(ARCHIVE_WARN, ARCHIVE_RETRY or ARCHIVE_FATAL). -/
inductive HdrStatus where
  | hOk
  | hEof
  | hFatal
deriving DecidableEq

/-- The verification loop of Backup::verifyBackup (backup.cpp lines
214-218): `while (archive_read_next_header(a, &entry) == ARCHIVE_OK)
archive_read_data_skip(a);`.  The loop stops at the first status other
than ARCHIVE_OK and the `success` local is never assigned inside it. -/
def verifyScan (success : Bool) : List HdrStatus → Bool
  | [] => success
  | HdrStatus.hOk :: rest => verifyScan success rest
  | HdrStatus.hEof :: _ => success
  | HdrStatus.hFatal :: _ => success

/-- Backup::verifyBackup (backup.cpp lines 203-223).  `openOk` models the
`archive_read_open_filename` result; `hdrs` is the sequence of header-read
outcomes the archive stream produces. -/
def verifyBackup (openOk : Bool) (hdrs : List HdrStatus) : Except String Bool :=
  if !openOk then Except.error "Failed to open archive for verification"
  else Except.ok (verifyScan true hdrs)

/-- Modelled from the spec (section 4.5): verification succeeds only when
every entry header is sequentially decodable to end-of-stream; a decode
error must not be downgraded to success.  Stated for comparison with
`verifyBackup`. -/
def specVerifyCleanDecode : List HdrStatus → Bool
  | [] => true
  | HdrStatus.hOk :: rest => specVerifyCleanDecode rest
  | HdrStatus.hEof :: _ => true
  | HdrStatus.hFatal :: _ => false

/-- One file seen by `fs::directory_iterator` in a backup folder during
cleanup: its path, `is_regular_file()`, its last-write time in
system-clock seconds, and whether `fs::remove` succeeds on it. -/
structure ArtifactFile where
  path : String
  isRegular : Bool
  mtime : Int
  removable : Bool
deriving DecidableEq

/-- A backup artifact folder: whether the directory can be iterated (the
`fs::directory_iterator` constructor throws for a missing or unreadable
directory and backup.cpp has no handler for that) and its files. -/
structure BackupFolder where
  present : Bool
  files : List ArtifactFile
deriving DecidableEq

/-- Outcome of Backup::cleanupOldBackups: normal success, the
`std::unexpected` produced when `fs::remove` throws (backup.cpp lines
192-195), or a C++ exception escaping the function (the unguarded
`fs::directory_iterator` at line 184). -/
inductive CleanupRes where
  | ok
  | errRes (msg : String)
  | exn (msg : String)
deriving DecidableEq

/-- The per-file loop of Backup::cleanupOldBackups (backup.cpp lines
184-198) over one folder: regular files whose (no-op recomputed) file time
is strictly below the threshold are removed; the first removal failure
returns an error immediately, abandoning the rest.  Returns the error, if
any, and the paths actually removed. -/
def cleanupFilesLoop (threshold now : Int) :
    List ArtifactFile → Option String × List String
  | [] => (none, [])
  | f :: rest =>
    if f.isRegular then
      if fileTimeOf now f.mtime < threshold then
        if f.removable then
          let r := cleanupFilesLoop threshold now rest
          (r.1, f.path :: r.2)
        else (some "Failed to remove old backup", [])
      else cleanupFilesLoop threshold now rest
    else cleanupFilesLoop threshold now rest

/-- Backup::cleanupOldBackups (backup.cpp lines 179-201): the threshold is
`now - hours(24 * retentionDays)` and the system folder is processed
before the database folder.  Iterating a missing folder throws out of the
function.  (The `24 * retentionDays` product lives in a C++ int; for the
magnitudes a retention policy uses it cannot overflow, so the model keeps
exact integers.) -/
def cleanupOldBackups (now retentionDays : Int)
    (sysFolder dbFolder : BackupFolder) : CleanupRes × List String :=
  let threshold := now - 24 * retentionDays * 3600
  if !sysFolder.present then
    (CleanupRes.exn "filesystem error: directory iterator", [])
  else
    let r1 := cleanupFilesLoop threshold now sysFolder.files
    match r1.1 with
    | some m => (CleanupRes.errRes m, r1.2)
    | none =>
      if !dbFolder.present then
        (CleanupRes.exn "filesystem error: directory iterator", r1.2)
      else
        let r2 := cleanupFilesLoop threshold now dbFolder.files
        match r2.1 with
        | some m => (CleanupRes.errRes m, r1.2 ++ r2.2)
        | none => (CleanupRes.ok, r1.2 ++ r2.2)

/-- Environment of one Backup::execute run: the backup type token, the
file-backup inputs, the verification stream, and the outcomes of the
collaborator steps the orchestrator consults. -/
structure RunEnv where
  btype : String
  excl : List String
  markerContent : Option String
  fullBackup : Bool
  scanNow : Int
  endNow : Int
  dirs : List SourceDir
  archiveOpenOk : Bool
  flagJoin : Bool
  verifyOpenOk : Bool
  hdrs : List HdrStatus
  ownershipOk : Bool
  cleanNow : Int
  retentionDays : Int
  sysFolder : BackupFolder
  dbFolder : BackupFolder
deriving DecidableEq

/-- How one Backup::execute call terminates: a returned success, a returned
`std::unexpected` message, or a C++ exception propagating out. -/
inductive RunRes where
  | ok
  | err (msg : String)
  | exn (msg : String)
deriving DecidableEq

/-- Observable outcome of Backup::execute: its termination and the marker
write performed (if any) by the file-backup phase inside it. -/
structure RunOutcome where
  result : RunRes
  markerWrite : Option Int
deriving DecidableEq

/-- Backup::execute (backup.cpp lines 69-177).  The database dump and the
transfers only log and notify on failure, so their outcomes do not appear
in the result; the file backup, verification and ownership steps return
errors; a cleanup error result is absorbed (lines 161-168) while a cleanup
exception propagates. -/
def backupExecute (env : RunEnv) : RunOutcome :=
  if !(env.btype = "daily" ∨ env.btype = "monthly" ∨ env.btype = "yearly") then
    { result := RunRes.err "Invalid backup type. Use daily, monthly, or yearly."
      markerWrite := none }
  else
    let t := tarGzExecute env.excl env.markerContent env.fullBackup env.scanNow
      env.endNow env.dirs env.archiveOpenOk env.flagJoin
    match t.result with
    | Except.error m =>
      { result := RunRes.err ("File backup failed: " ++ m), markerWrite := t.markerWrite }
    | Except.ok _ =>
      match verifyBackup env.verifyOpenOk env.hdrs with
      | Except.error m =>
        { result := RunRes.err ("Backup verification failed: " ++ m)
          markerWrite := t.markerWrite }
      | Except.ok v =>
        if !v then
          { result := RunRes.err "Backup verification failed", markerWrite := t.markerWrite }
        else if !env.ownershipOk then
          { result := RunRes.err "Failed to change ownership", markerWrite := t.markerWrite }
        else
          match (cleanupOldBackups env.cleanNow env.retentionDays env.sysFolder env.dbFolder).1 with
          | CleanupRes.exn m => { result := RunRes.exn m, markerWrite := t.markerWrite }
          | _ => { result := RunRes.ok, markerWrite := t.markerWrite }

/-- The std::tm fields Backup::getNextBackupTime manipulates.  `year` is
`tm_year + 1900`, `mon` is the zero-based `tm_mon`, `wday` the zero-based
day of week with Sunday = 0 as `localtime` fills it (`mktime` ignores it).
The model works in UTC: `localtime` and `mktime` are the two directions of
one fixed civil-time bijection, which is what the function relies on. -/
structure Tm where
  year : Int
  mon : Int
  mday : Int
  hour : Int
  min : Int
  sec : Int
  wday : Int
deriving DecidableEq

/-- Days from 1970-01-01 to year/month(1-12)/day, the civil-from-days
algorithm used by every C library mktime; linear in `d`, which reproduces
the normalization mktime applies to an out-of-range tm_mday. -/
def daysFromCivil (y m d : Int) : Int :=
  let y2 := if m ≤ 2 then y - 1 else y
  let era := y2 / 400
  let yoe := y2 - era * 400
  let mp := (m + 9) % 12
  let doy := (153 * mp + 2) / 5 + d - 1
  let doe := yoe * 365 + yoe / 4 - yoe / 100 + doy
  era * 146097 + doe - 719468

/-- Inverse of `daysFromCivil` on in-range dates, producing
(year, month 1-12, day 1-31). -/
def civilFromDays (z0 : Int) : Int × Int × Int :=
  let z := z0 + 719468
  let era := z / 146097
  let doe := z - era * 146097
  let yoe := (doe - doe / 1460 + doe / 36524 - doe / 146096) / 365
  let y := yoe + era * 400
  let doy := doe - (365 * yoe + yoe / 4 - yoe / 100)
  let mp := (5 * doy + 2) / 153
  let d := doy - (153 * mp + 2) / 5 + 1
  let m := mp + (if mp < 10 then 3 else -9)
  (if m ≤ 2 then y + 1 else y, m, d)

/-- Model of localtime in UTC: epoch seconds to broken-down time. -/
def epochToTm (t : Int) : Tm :=
  let days := t / 86400
  let secs := t % 86400
  let c := civilFromDays days
  { year := c.1, mon := c.2.1 - 1, mday := c.2.2
    hour := secs / 3600, min := secs % 3600 / 60, sec := secs % 60
    wday := (days + 4) % 7 }

/-- Model of mktime in UTC: broken-down time back to epoch seconds, normalizing
an out-of-range `mday` linearly exactly as mktime does. -/
def tmToEpoch (t : Tm) : Int :=
  daysFromCivil t.year (t.mon + 1) t.mday * 86400
    + t.hour * 3600 + t.min * 60 + t.sec

/-- The `dayMap` of backup.cpp lines 257-260. -/
def dayMap (s : String) : Option Int :=
  if s = "monday" then some 1
  else if s = "tuesday" then some 2
  else if s = "wednesday" then some 3
  else if s = "thursday" then some 4
  else if s = "friday" then some 5
  else if s = "saturday" then some 6
  else if s = "sunday" then some 0
  else none

/-- Backup::getNextBackupTime (backup.cpp lines 225-300).  The HH:MM:SS
string has already been split into `hour`, `minute`, `second` (the
istringstream extraction at lines 231-233); the range check at line 234 and
the thrown configuration errors become `Except.error`.  Each branch mirrors
the source: daily rolls one day when the time has passed; weekly adds
`(target - current + 7) mod 7` days, or 7 when that is zero and the time
has passed; monthly sets `tm_mday` to the target day but recomputes
`nextTime` from it only inside the roll branch at lines 283-292 — in the
no-roll path the value from line 245, built from the current day of month,
is returned unchanged. -/
def getNextBackupTime (schedType : String) (hour minute second : Int)
    (schedDayOfWeek : String) (schedDayOfMonth : Int) (now : Int) :
    Except String Int :=
  let tmNow := epochToTm now
  if hour < 0 ∨ 23 < hour ∨ minute < 0 ∨ 59 < minute ∨ second < 0 ∨ 59 < second then
    Except.error "Invalid schedule time format"
  else
    let tmNext := { tmNow with hour := hour, min := minute, sec := second }
    let nextTime := tmToEpoch tmNext
    if schedType = "daily" then
      if nextTime ≤ now then
        Except.ok (tmToEpoch { tmNext with mday := tmNext.mday + 1 })
      else Except.ok nextTime
    else if schedType = "weekly" then
      match dayMap schedDayOfWeek with
      | none => Except.error "Invalid day of week"
      | some targetDay =>
        let currentDay := tmNow.wday
        let delta := (targetDay - currentDay + 7) % 7
        let daysToAdd := if delta = 0 ∧ nextTime ≤ now then 7 else delta
        Except.ok (tmToEpoch { tmNext with mday := tmNext.mday + daysToAdd })
    else if schedType = "monthly" then
      if schedDayOfMonth < 1 ∨ 31 < schedDayOfMonth then
        Except.error "Invalid day of month"
      else
        let tmNext2 := { tmNext with mday := schedDayOfMonth }
        if tmNext2.mday ≤ tmNow.mday ∧ nextTime ≤ now then
          let tmNext3 :=
            if 11 < tmNext2.mon + 1 then
              { tmNext2 with mon := 0, year := tmNext2.year + 1, mday := schedDayOfMonth }
            else
              { tmNext2 with mon := tmNext2.mon + 1, mday := schedDayOfMonth }
          Except.ok (tmToEpoch tmNext3)
        else Except.ok nextTime
    else Except.error "Invalid schedule type"

theorem verifyScan_eq (s : Bool) (hdrs : List HdrStatus) : verifyScan s hdrs = s := by
  induction hdrs with
  | nil => rfl
  | cons h rest ih => cases h <;> simp [verifyScan, ih]

theorem countLoop_eq_countP (excl : List String) (fullBackup : Bool)
    (marker now : Int) (entries : List FileEntry) :
    countLoop excl fullBackup marker now entries =
      entries.countP (fun f => f.isRegular && !isExcluded excl f.ext &&
        (fullBackup || decide (marker < fileTimeOf now f.mtime))) := by
  induction entries with
  | nil => simp [countLoop]
  | cons f rest ih =>
    by_cases hr : f.isRegular <;> by_cases he : isExcluded excl f.ext <;>
      by_cases hf : fullBackup <;> by_cases ht : marker < fileTimeOf now f.mtime <;>
        simp_all [countLoop, List.countP_cons, not_lt]

theorem backupDirLoop_mem (excl : List String) (fullBackup : Bool)
    (marker now : Int) (entries : List FileEntry) (p : String) :
    p ∈ backupDirLoop excl fullBackup marker now false entries ↔
      ∃ f, f ∈ entries ∧ f.path = p ∧ f.isRegular = true ∧ f.openable = true ∧
        isExcluded excl f.ext = false ∧
        (fullBackup = true ∨ marker < fileTimeOf now f.mtime) := by
  induction entries with
  | nil => simp [backupDirLoop]
  | cons f rest ih =>
    by_cases hr : f.isRegular <;> by_cases he : isExcluded excl f.ext <;>
      by_cases ho : f.openable <;> by_cases hf : fullBackup <;>
        by_cases ht : fileTimeOf now f.mtime ≤ marker <;>
          simp_all [backupDirLoop, List.mem_cons, ← not_le] <;> try tauto

theorem cleanupFilesLoop_all_removable (threshold now : Int)
    (files : List ArtifactFile) (h : ∀ f ∈ files, f.removable = true) :
    cleanupFilesLoop threshold now files =
      (none, (files.filter (fun f => f.isRegular &&
        decide (fileTimeOf now f.mtime < threshold))).map (fun f => f.path)) := by
  induction files with
  | nil => simp [cleanupFilesLoop]
  | cons f rest ih =>
    have hf : f.removable = true := h f (List.mem_cons_self f rest)
    have hrest : ∀ g ∈ rest, g.removable = true :=
      fun g hg => h g (List.mem_cons_of_mem f hg)
    by_cases hr : f.isRegular <;>
      by_cases ht : fileTimeOf now f.mtime < threshold <;>
        simp_all [cleanupFilesLoop, List.filter_cons]

theorem tarGzExecute_markerWrite (excl : List String) (content : Option String)
    (fullBackup : Bool) (scanNow endNow : Int) (dirs : List SourceDir)
    (archiveOpenOk flagJoin : Bool) :
    (tarGzExecute excl content fullBackup scanNow endNow dirs archiveOpenOk flagJoin).markerWrite =
      if countFilesRun excl content fullBackup scanNow dirs ≠ 0
          ∧ archiveOpenOk = true ∧ flagJoin = false then some endNow
      else none := by
  by_cases h0 : countFilesRun excl content fullBackup scanNow dirs = 0 <;>
    by_cases ho : archiveOpenOk <;> by_cases hfl : flagJoin <;>
      simp_all [tarGzExecute]

theorem backupExecute_markerWrite (env : RunEnv)
    (h : env.btype = "daily" ∨ env.btype = "monthly" ∨ env.btype = "yearly") :
    (backupExecute env).markerWrite =
      (tarGzExecute env.excl env.markerContent env.fullBackup env.scanNow
        env.endNow env.dirs env.archiveOpenOk env.flagJoin).markerWrite := by
  unfold backupExecute
  rw [if_neg (by simp [h])]
  cases htr : (tarGzExecute env.excl env.markerContent env.fullBackup env.scanNow
      env.endNow env.dirs env.archiveOpenOk env.flagJoin).result with
  | error m => simp [htr]
  | ok v =>
    cases hvo : env.verifyOpenOk <;>
      simp [htr, verifyBackup, verifyScan_eq, hvo] <;>
        cases hoo : env.ownershipOk <;> simp [hoo] <;>
          cases hcl : (cleanupOldBackups env.cleanNow env.retentionDays
              env.sysFolder env.dbFolder).1 <;> simp [hcl]

/-- Claim C2 (code bug).  An archive whose stream opens but whose first
entry header fails to decode makes Backup::verifyBackup return ok(true):
the while loop at backup.cpp line 216 merely exits on any status other
than ARCHIVE_OK and the `success` local initialised at line 215 is never
set to false, so a decode error is silently reported as success.  The
spec-side predicate rejects the same stream, and a clean stream is
accepted by both. -/
theorem c2_verify_decode_error_silent_success :
    verifyBackup true [HdrStatus.hFatal] = Except.ok true ∧
    specVerifyCleanDecode [HdrStatus.hFatal] = false ∧
    verifyBackup true [HdrStatus.hOk, HdrStatus.hFatal] = Except.ok true ∧
    specVerifyCleanDecode [HdrStatus.hOk, HdrStatus.hFatal] = false ∧
    verifyBackup true [HdrStatus.hOk, HdrStatus.hEof] = Except.ok true ∧
    specVerifyCleanDecode [HdrStatus.hOk, HdrStatus.hEof] = true ∧
    verifyBackup false [] = Except.error "Failed to open archive for verification" := by
  decide

/-- Claim C3 (code bug).  With now = 2024-03-15 10:00:00 (epoch
1710496800): the documented example day=1, time 00:00:00 does roll to
2024-04-01 00:00:00 (epoch 1711929600), but for day=20 the no-roll branch
returns epoch 1710460800 = 2024-03-15 00:00:00 — the value computed at
backup.cpp line 245 from the CURRENT day of month, never recomputed after
`tmNext.tm_mday = targetDay` (line 282), and already in the past — instead
of 2024-03-20 00:00:00 (epoch 1710892800, the last conjunct). -/
theorem c3_monthly_no_roll_ignores_target_day :
    getNextBackupTime "monthly" 0 0 0 "" 1 1710496800 = Except.ok 1711929600 ∧
    getNextBackupTime "monthly" 0 0 0 "" 20 1710496800 = Except.ok 1710460800 ∧
    (1710460800 : Int) < 1710496800 ∧
    tmToEpoch ⟨2024, 2, 20, 0, 0, 0, 3⟩ = 1710892800 := by
  decide

/-- One regular, readable file whose `path().extension()` is the empty
string, scanned while the configured exclusion list contains the empty
string. -/
def c4File : FileEntry :=
  { path := "/srv/README", ext := "", isRegular := true, mtime := 100, openable := true }

/-- Claim C4 (counterexample).  The empty extension is a member of the
exclusion list, yet the file is counted and archived by a full run: the
`!ext.empty()` guard in the `isExcluded` lambda overrides set membership,
so inclusion is not equivalent to the extension not being in the
configured exclusion set. -/
theorem c4_counterexample :
    List.contains [""] c4File.ext = true ∧
    countDirectory [""] none true 200 { present := true, entries := [c4File] } = 1 ∧
    backupDirectory [""] none true 200 false { present := true, entries := [c4File] }
      = ["/srv/README"] := by
  decide

/-- Claim C4 (amended).  With no cancellation observed, a path is archived
from a source directory iff the directory exists and it names a yielded
regular entry that can be opened, whose extension is not excluded (the
`isExcluded` lambda, which never excludes an empty extension), and which
passes the incremental gate: fullBackup, or modified time strictly after
the persisted marker value.  Counting uses the same gate except that it
ignores openability. -/
theorem c4_selection_policy (excl : List String) (content : Option String)
    (fullBackup : Bool) (now : Int) (d : SourceDir) (p : String) :
    (p ∈ backupDirectory excl content fullBackup now false d ↔
      d.present = true ∧ ∃ f, f ∈ d.entries ∧ f.path = p ∧ f.isRegular = true ∧
        f.openable = true ∧ isExcluded excl f.ext = false ∧
        (fullBackup = true ∨ markerValue content < fileTimeOf now f.mtime)) ∧
    countDirectory excl content fullBackup now d =
      (if d.present then
        d.entries.countP (fun f => f.isRegular && !isExcluded excl f.ext &&
          (fullBackup || decide (markerValue content < fileTimeOf now f.mtime)))
      else 0) := by
  constructor
  · unfold backupDirectory
    cases hp : d.present with
    | false => simp
    | true =>
      rw [if_pos rfl]
      rw [backupDirLoop_mem]
      cases hf : fullBackup <;> simp [lastBackupTimeOf, hp]
  · unfold countDirectory
    cases hp : d.present with
    | false => simp
    | true =>
      rw [if_pos rfl, if_pos rfl, countLoop_eq_countP]
      cases hf : fullBackup <;> simp [lastBackupTimeOf]

/-- Claim C10.  A file whose extension is the empty string is never
treated as excluded, whatever the configured exclusion list contains (the
lambda demands `!ext.empty()` first), and such a regular file passing the
incremental gate is both counted and archived. -/
theorem c10_empty_extension_never_excluded (excl : List String)
    (content : Option String) (fullBackup : Bool) (now : Int) (f : FileEntry)
    (hext : f.ext = "") (hreg : f.isRegular = true) (hopen : f.openable = true)
    (htime : fullBackup = true ∨
      lastBackupTimeOf content fullBackup < fileTimeOf now f.mtime) :
    isExcluded excl f.ext = false ∧
    countDirectory excl content fullBackup now { present := true, entries := [f] } = 1 ∧
    backupDirectory excl content fullBackup now false { present := true, entries := [f] }
      = [f.path] := by
  have hexc : isExcluded excl f.ext = false := by
    rw [hext]; rfl
  refine ⟨hexc, ?_, ?_⟩
  · simp [countDirectory, countLoop, hreg, hexc, htime]
  · rcases htime with hfb | hlt
    · simp [backupDirectory, backupDirLoop, hreg, hexc, hopen, hfb]
    · simp [backupDirectory, backupDirLoop, hreg, hexc, hopen, not_le.mpr hlt]

/-- Witness for c10_empty_extension_never_excluded: the exclusion list
contains exactly the empty string, the run is incremental with marker 50,
and the extensionless file modified at 120 is still counted and archived. -/
theorem c10_witness :
    isExcluded [""] "" = false ∧
    countDirectory [""] (some "50") false 200
      { present := true, entries := [⟨"/srv/noext", "", true, 120, true⟩] } = 1 ∧
    backupDirectory [""] (some "50") false 200 false
      { present := true, entries := [⟨"/srv/noext", "", true, 120, true⟩] }
      = ["/srv/noext"] :=
  c10_empty_extension_never_excluded [""] (some "50") false 200
    ⟨"/srv/noext", "", true, 120, true⟩ rfl rfl rfl (Or.inr (by decide))

/-- A run whose single source directory exists but contains only a file
with an excluded extension, so countFiles returns zero. -/
def c5Dir : SourceDir :=
  { present := true
    entries := [{ path := "/srv/app.log", ext := ".log", isRegular := true,
                  mtime := 100, openable := true }] }

/-- Claim C5 (counterexample).  The cancellation flag is set for the whole
run (the flagJoin argument is true, and countFiles never consults the flag
at all), yet execute returns success, because the zero-count early return
at file_backup.cpp lines 231-235 precedes every flag check.  The marker is
still unwritten. -/
theorem c5_counterexample :
    tarGzExecute [".log"] none true 200 300 [c5Dir] true true =
      { result := Except.ok (), archiveOpenAttempted := false, markerWrite := none } := by
  decide

/-- Claim C5 (amended).  Whenever the run found at least one eligible file
and the archive opened, a cancellation flag observed set at the post-join
check of file_backup.cpp line 264 makes execute return the interruption
error and leaves the marker file unwritten; a zero-count run instead
returns success regardless of the flag, also without touching the
marker. -/
theorem c5_interrupted_run (excl : List String) (content : Option String)
    (fullBackup : Bool) (scanNow endNow : Int) (dirs : List SourceDir)
    (hcount : countFilesRun excl content fullBackup scanNow dirs ≠ 0) :
    tarGzExecute excl content fullBackup scanNow endNow dirs true true =
      { result := Except.error "Backup interrupted by signal"
        archiveOpenAttempted := true, markerWrite := none } := by
  unfold tarGzExecute
  simp [hcount]

/-- Witness for c5_interrupted_run: one present directory holding one
eligible regular file; the interrupted run reports the interruption and
does not write the marker. -/
theorem c5_witness :
    tarGzExecute [] none true 200 300
      [{ present := true, entries := [⟨"/srv/a.txt", ".txt", true, 100, true⟩] }] true true =
      { result := Except.error "Backup interrupted by signal"
        archiveOpenAttempted := true, markerWrite := none } :=
  c5_interrupted_run [] none true 200 300
    [{ present := true, entries := [⟨"/srv/a.txt", ".txt", true, 100, true⟩] }]
    (by decide)

/-- Claim C6.  If countFiles returns zero, execute returns success at
file_backup.cpp lines 231-235, before `archive_write_new` and
`archive_write_open_filename` run and before the marker write, so no
archive file is created or written. -/
theorem c6_zero_count_success_no_archive (excl : List String)
    (content : Option String) (fullBackup : Bool) (scanNow endNow : Int)
    (dirs : List SourceDir) (archiveOpenOk flagJoin : Bool)
    (hzero : countFilesRun excl content fullBackup scanNow dirs = 0) :
    tarGzExecute excl content fullBackup scanNow endNow dirs archiveOpenOk flagJoin =
      { result := Except.ok (), archiveOpenAttempted := false, markerWrite := none } := by
  unfold tarGzExecute
  simp [hzero]

/-- Witness for c6_zero_count_success_no_archive: a directory whose only
regular file is older than the marker on an incremental run. -/
theorem c6_witness :
    tarGzExecute [] (some "150") false 200 300
      [{ present := true, entries := [⟨"/srv/b.txt", ".txt", true, 100, true⟩] }] true false =
      { result := Except.ok (), archiveOpenAttempted := false, markerWrite := none } :=
  c6_zero_count_success_no_archive [] (some "150") false 200 300
    [{ present := true, entries := [⟨"/srv/b.txt", ".txt", true, 100, true⟩] }] true false
    (by decide)

/-- Claim C7.  Reading the incremental marker never raises an error: a
missing file, an empty file, or a first line std::stol rejects all yield
the epoch-zero timestamp (forcing a full scan), while a first line stol
accepts yields the persisted value. -/
theorem c7_marker_read (s : String) (v : Int) :
    markerValue none = 0 ∧
    markerValue (some "") = 0 ∧
    (stol (firstLine s) = none → markerValue (some s) = 0) ∧
    (stol (firstLine s) = some v → markerValue (some s) = v) := by
  refine ⟨rfl, by decide, ?_, ?_⟩
  · intro h
    unfold markerValue
    by_cases he : (firstLine s).isEmpty <;> simp [he, h]
  · intro h
    have hne : (firstLine s).isEmpty = false := by
      cases he : (firstLine s).isEmpty
      · rfl
      · exfalso
        have h0 : firstLine s = "" := (String.isEmpty_iff (firstLine s)).mp he
        rw [h0] at h
        simp [stol] at h
    unfold markerValue
    simp [hne, h]

/-- Witness for c7_marker_read: a numeric marker file yields its value; a
non-numeric one yields the epoch. -/
theorem c7_witness :
    markerValue (some "1700000000") = 1700000000 ∧
    markerValue (some "garbage") = 0 :=
  ⟨(c7_marker_read "1700000000" 1700000000).2.2.2 (by decide),
   (c7_marker_read "garbage" 0).2.2.1 (by decide)⟩

/-- Claim C8.  When both backup folders can be iterated and every stale
file can be removed, cleanup succeeds and deletes exactly the regular
files whose last-modified time is strictly older than now minus the
retention window of 24 * retentionDays hours. -/
theorem c8_retention_policy (now retentionDays : Int)
    (sysFolder dbFolder : BackupFolder)
    (hsys : sysFolder.present = true) (hdb : dbFolder.present = true)
    (hrem : ∀ f ∈ sysFolder.files ++ dbFolder.files, f.removable = true) :
    (cleanupOldBackups now retentionDays sysFolder dbFolder).1 = CleanupRes.ok ∧
    ∀ p, p ∈ (cleanupOldBackups now retentionDays sysFolder dbFolder).2 ↔
      ∃ f, f ∈ sysFolder.files ++ dbFolder.files ∧ f.path = p ∧
        f.isRegular = true ∧ f.mtime < now - 24 * retentionDays * 3600 := by
  have hremS : ∀ f ∈ sysFolder.files, f.removable = true :=
    fun f hf => hrem f (List.mem_append_left _ hf)
  have hremD : ∀ f ∈ dbFolder.files, f.removable = true :=
    fun f hf => hrem f (List.mem_append_right _ hf)
  unfold cleanupOldBackups
  rw [hsys, hdb]
  simp only [Bool.not_true, Bool.false_eq_true, if_false,
    cleanupFilesLoop_all_removable _ _ _ hremS,
    cleanupFilesLoop_all_removable _ _ _ hremD]
  refine ⟨by trivial, fun p => ?_⟩
  simp [List.mem_append, List.mem_map, List.mem_filter, fileTimeOf_eq]
  constructor
  · rintro (⟨f, ⟨hf, hreg, hold⟩, hp⟩ | ⟨f, ⟨hf, hreg, hold⟩, hp⟩)
    · exact ⟨f, Or.inl hf, hp, hreg, hold⟩
    · exact ⟨f, Or.inr hf, hp, hreg, hold⟩
  · rintro ⟨f, hf | hf, hp, hreg, hold⟩
    · exact Or.inl ⟨f, ⟨hf, hreg, hold⟩, hp⟩
    · exact Or.inr ⟨f, ⟨hf, hreg, hold⟩, hp⟩

/-- System backup folder for the retention scenario: one artifact 10 days
old and one 3 days old, relative to now = 1710496800. -/
def c8SysFolder : BackupFolder :=
  { present := true
    files := [⟨"/backups/sys/old.tar.gz", true, 1710496800 - 864000, true⟩,
              ⟨"/backups/sys/new.tar.gz", true, 1710496800 - 259200, true⟩] }

/-- Empty database backup folder for the retention scenario. -/
def c8DbFolder : BackupFolder :=
  { present := true, files := [] }

/-- Witness for c8_retention_policy: with retentionDays = 7 the 10-day-old
artifact is deleted and the 3-day-old artifact is retained. -/
theorem c8_witness :
    (cleanupOldBackups 1710496800 7 c8SysFolder c8DbFolder).1 = CleanupRes.ok ∧
    (cleanupOldBackups 1710496800 7 c8SysFolder c8DbFolder).2
      = ["/backups/sys/old.tar.gz"] :=
  ⟨(c8_retention_policy 1710496800 7 c8SysFolder c8DbFolder rfl rfl (by decide)).1,
   by decide⟩

/-- A run whose archive-write phase succeeds (one eligible file, archive
opened, no cancellation) but whose verification cannot re-open the
archive. -/
def c1Env : RunEnv :=
  { btype := "daily", excl := [], markerContent := none, fullBackup := true
    scanNow := 200, endNow := 300
    dirs := [{ present := true, entries := [⟨"/srv/data.txt", ".txt", true, 100, true⟩] }]
    archiveOpenOk := true, flagJoin := false
    verifyOpenOk := false, hdrs := []
    ownershipOk := true, cleanNow := 0, retentionDays := 7
    sysFolder := { present := true, files := [] }
    dbFolder := { present := true, files := [] } }

/-- Claim C1 (counterexample).  A run that fails verification still has
its marker written: TarGzFileBackupStrategy::execute writes the marker at
file_backup.cpp lines 278-282 as soon as the archive write completes, and
Backup::execute only verifies afterwards (backup.cpp line 116), so the
failed run ends with the marker updated to the post-close time. -/
theorem c1_counterexample :
    (backupExecute c1Env).result =
      RunRes.err "Backup verification failed: Failed to open archive for verification" ∧
    (backupExecute c1Env).markerWrite = some 300 := by
  decide

/-- Claim C1 (amended).  The marker is written exactly once per run —
with the time captured after the archive is closed — precisely when the
archive-write phase found at least one file, opened its archive, and saw
no cancellation at the join point; it is never written on a failed,
interrupted or empty write phase, but it is written BEFORE verification,
so a run that later fails verification (or ownership change, or transfer)
keeps the updated marker. -/
theorem c1_marker_iff_write_phase_success (env : RunEnv)
    (h : env.btype = "daily" ∨ env.btype = "monthly" ∨ env.btype = "yearly") :
    (backupExecute env).markerWrite =
      if countFilesRun env.excl env.markerContent env.fullBackup env.scanNow env.dirs ≠ 0
          ∧ env.archiveOpenOk = true ∧ env.flagJoin = false
      then some env.endNow else none := by
  rw [backupExecute_markerWrite env h, tarGzExecute_markerWrite]

/-- Witness for c1_marker_iff_write_phase_success, at the environment of
c1_counterexample: the condition holds, so the marker is written even
though that run fails verification. -/
theorem c1_witness : (backupExecute c1Env).markerWrite = some 300 := by
  rw [c1_marker_iff_write_phase_success c1Env (Or.inl rfl)]
  decide

/-- A run that succeeds through write, verification, ownership and
transfer, but whose database backup folder is missing when the retention
cleanup iterates it. -/
def c9Env : RunEnv :=
  { btype := "daily", excl := [], markerContent := none, fullBackup := true
    scanNow := 200, endNow := 300
    dirs := [{ present := true, entries := [⟨"/srv/notes.txt", ".txt", true, 100, true⟩] }]
    archiveOpenOk := true, flagJoin := false
    verifyOpenOk := true, hdrs := [HdrStatus.hOk, HdrStatus.hEof]
    ownershipOk := true, cleanNow := 1710496800, retentionDays := 7
    sysFolder := { present := true, files := [] }
    dbFolder := { present := false, files := [] } }

/-- Claim C9 (counterexample).  Every phase before cleanup succeeds, yet
the run does not end in success: cleanupOldBackups iterates the database
backup folder with no exception handler around `fs::directory_iterator`
(backup.cpp line 184), and Backup::execute calls it without a try block
(line 161), so the filesystem_error thrown for the missing folder
propagates and replaces the success return. -/
theorem c9_counterexample :
    (tarGzExecute c9Env.excl c9Env.markerContent c9Env.fullBackup c9Env.scanNow
      c9Env.endNow c9Env.dirs c9Env.archiveOpenOk c9Env.flagJoin).result = Except.ok () ∧
    verifyBackup c9Env.verifyOpenOk c9Env.hdrs = Except.ok true ∧
    (cleanupOldBackups c9Env.cleanNow c9Env.retentionDays c9Env.sysFolder c9Env.dbFolder).1
      = CleanupRes.exn "filesystem error: directory iterator" ∧
    (backupExecute c9Env).result ≠ RunRes.ok := by
  decide

/-- Claim C9 (amended).  A cleanup failure that is reported through the
result channel — the aborting per-file deletion error of backup.cpp lines
192-195 — does not change the outcome of a run whose earlier phases all
succeeded: execute still returns success (lines 161-176).  Only a cleanup
failure that escapes as a C++ exception (a folder that cannot be
iterated) replaces the success outcome. -/
theorem c9_cleanup_error_result_keeps_success (env : RunEnv) (m : String)
    (htype : env.btype = "daily" ∨ env.btype = "monthly" ∨ env.btype = "yearly")
    (hcount : countFilesRun env.excl env.markerContent env.fullBackup
      env.scanNow env.dirs ≠ 0)
    (hopen : env.archiveOpenOk = true) (hflag : env.flagJoin = false)
    (hver : env.verifyOpenOk = true) (hown : env.ownershipOk = true)
    (hclean : (cleanupOldBackups env.cleanNow env.retentionDays
      env.sysFolder env.dbFolder).1 = CleanupRes.errRes m) :
    (backupExecute env).result = RunRes.ok := by
  have htar : tarGzExecute env.excl env.markerContent env.fullBackup env.scanNow
      env.endNow env.dirs env.archiveOpenOk env.flagJoin =
      { result := Except.ok (), archiveOpenAttempted := true
        markerWrite := some env.endNow } := by
    unfold tarGzExecute
    simp [hcount, hopen, hflag]
  unfold backupExecute
  rw [if_neg (by simp [htype])]
  simp [htar, verifyBackup, verifyScan_eq, hver, hown, hclean]

/-- Environment for the c9 witness: identical shape to a fully successful
run, except that the system backup folder holds one stale artifact whose
deletion fails, so cleanup returns the aborting error result. -/
def c9WitnessEnv : RunEnv :=
  { btype := "daily", excl := [], markerContent := none, fullBackup := true
    scanNow := 200, endNow := 300
    dirs := [{ present := true, entries := [⟨"/srv/notes2.txt", ".txt", true, 100, true⟩] }]
    archiveOpenOk := true, flagJoin := false
    verifyOpenOk := true, hdrs := [HdrStatus.hOk, HdrStatus.hEof]
    ownershipOk := true, cleanNow := 1710496800, retentionDays := 7
    sysFolder := { present := true
                   files := [⟨"/backups/sys/stale.tar.gz", true, 0, false⟩] }
    dbFolder := { present := true, files := [] } }

/-- Witness for c9_cleanup_error_result_keeps_success: the deletion of the
stale artifact fails, cleanup returns its error result, and the run still
returns success. -/
theorem c9_witness : (backupExecute c9WitnessEnv).result = RunRes.ok :=
  c9_cleanup_error_result_keeps_success c9WitnessEnv "Failed to remove old backup"
    (Or.inl rfl) (by decide) rfl rfl rfl rfl (by decide)
